import Mathlib

/-!
Verification of the impact-provider core of `cloud-scanner`
(`cloud-scanner-cli/src/impact_provider.rs`).

Shallow embedding conventions:
* Rust `f32`/`f64` are modelled as `ℚ` (the spec describes the metric
  fields as real numbers; the aggregation algorithm is plain summation).
* Rust `usize` is modelled as `ℕ`.
* `serde_json::Value` (the opaque `raw_data` payload) is modelled as an
  uninterpreted `String`; the aggregator never inspects it.
* The `debug!` log statement in the aggregation loop is an observable
  side effect outside the returned value and is not modelled.
-/

/-- Modelled from the spec: `CloudResource` lives in `cloud_resource.rs`,
which is not part of the sources under verification.  The spec treats it
as an opaque, identifiable unit ("any identifiable unit with a type/name"),
so we model it as a bare identifier. -/
structure CloudResource where
  id : String
deriving Repr, DecidableEq

/-- Impacts of an individual resource (`ImpactsValues` in
`impact_provider.rs`).  The optional opaque `raw_data` JSON blob is
modelled as an uninterpreted string. -/
structure ImpactsValues where
  adp_manufacture_kgsbeq : ℚ
  adp_use_kgsbeq : ℚ
  pe_manufacture_megajoules : ℚ
  pe_use_megajoules : ℚ
  gwp_manufacture_kgco2eq : ℚ
  gwp_use_kgco2eq : ℚ
  raw_data : Option String
deriving Repr, DecidableEq

/-- The pairing of one cloud resource with its (optional) impacts and the
duration they were computed for (`CloudResourceWithImpacts` in
`impact_provider.rs`). -/
structure CloudResourceWithImpacts where
  cloud_resource : CloudResource
  impacts_values : Option ImpactsValues
  impacts_duration_hours : ℚ
deriving Repr, DecidableEq

/-- Modelled from the spec: `EstimatedInventory` is defined in `model.rs`,
which is not part of the sources under verification.  The spec describes it
as an ordered collection of `CloudResourceWithImpacts`; the field name
`impacting_resources` is how `ImpactsSummary::new` accesses it. -/
structure EstimatedInventory where
  impacting_resources : List CloudResourceWithImpacts
deriving Repr, DecidableEq

/-- The aggregated impacts and metadata about the scan results
(`ImpactsSummary` in `impact_provider.rs`). -/
@[ext]
structure ImpactsSummary where
  number_of_resources_total : ℕ
  number_of_resources_assessed : ℕ
  number_of_resources_not_assessed : ℕ
  duration_of_use_hours : ℚ
  adp_manufacture_kgsbeq : ℚ
  adp_use_kgsbeq : ℚ
  pe_manufacture_megajoules : ℚ
  pe_use_megajoules : ℚ
  gwp_manufacture_kgco2eq : ℚ
  gwp_use_kgco2eq : ℚ
  aws_region : String
  country : String
deriving Repr, DecidableEq

/-- One iteration of the `for resource in resources` loop body of
`ImpactsSummary::new`: if impact data is present the resource is counted
as assessed and its six metric fields are added into the running totals,
otherwise only the not-assessed counter is incremented. -/
def ImpactsSummary.addResource (summary : ImpactsSummary)
    (resource : CloudResourceWithImpacts) : ImpactsSummary :=
  match resource.impacts_values with
  | some impacts =>
      { summary with
        number_of_resources_assessed :=
          summary.number_of_resources_assessed + 1
        adp_manufacture_kgsbeq :=
          summary.adp_manufacture_kgsbeq + impacts.adp_manufacture_kgsbeq
        adp_use_kgsbeq := summary.adp_use_kgsbeq + impacts.adp_use_kgsbeq
        pe_manufacture_megajoules :=
          summary.pe_manufacture_megajoules + impacts.pe_manufacture_megajoules
        pe_use_megajoules := summary.pe_use_megajoules + impacts.pe_use_megajoules
        gwp_manufacture_kgco2eq :=
          summary.gwp_manufacture_kgco2eq + impacts.gwp_manufacture_kgco2eq
        gwp_use_kgco2eq := summary.gwp_use_kgco2eq + impacts.gwp_use_kgco2eq }
  | none =>
      { summary with
        number_of_resources_not_assessed :=
          summary.number_of_resources_not_assessed + 1 }

/-- `ImpactsSummary::new` from `impact_provider.rs`: initialize the summary
with `number_of_resources_total = resources.len()`, all counters and metric
totals zero and the report context copied from the arguments, then run the
accumulation loop over the resources in order. -/
def ImpactsSummary.new (aws_region : String) (country : String)
    (resources_with_impacts : EstimatedInventory)
    (duration_of_use_hours : ℚ) : ImpactsSummary :=
  let resources := resources_with_impacts.impacting_resources
  let summary : ImpactsSummary :=
    { number_of_resources_total := resources.length
      number_of_resources_assessed := 0
      number_of_resources_not_assessed := 0
      aws_region := aws_region
      country := country
      duration_of_use_hours := duration_of_use_hours
      adp_manufacture_kgsbeq := 0
      adp_use_kgsbeq := 0
      pe_manufacture_megajoules := 0
      pe_use_megajoules := 0
      gwp_manufacture_kgco2eq := 0
      gwp_use_kgco2eq := 0 }
  resources.foldl ImpactsSummary.addResource summary

/-- Number of resources in a list that carry impact data. -/
def assessedCount (l : List CloudResourceWithImpacts) : ℕ :=
  l.countP (fun r => r.impacts_values.isSome)

/-- Number of resources in a list that carry no impact data. -/
def notAssessedCount (l : List CloudResourceWithImpacts) : ℕ :=
  l.countP (fun r => r.impacts_values.isNone)

/-- Sum of one metric field over the assessed resources of a list; a
resource without impact data contributes `0`. -/
def metricSum (f : ImpactsValues → ℚ) (l : List CloudResourceWithImpacts) : ℚ :=
  (l.map (fun r =>
    match r.impacts_values with
    | some impacts => f impacts
    | none => 0)).sum

theorem assessedCount_nil : assessedCount [] = 0 := rfl

theorem notAssessedCount_nil : notAssessedCount [] = 0 := rfl

theorem metricSum_nil (f : ImpactsValues → ℚ) : metricSum f [] = 0 := rfl

theorem assessedCount_cons (r : CloudResourceWithImpacts)
    (l : List CloudResourceWithImpacts) :
    assessedCount (r :: l) =
      (if r.impacts_values.isSome then 1 else 0) + assessedCount l := by
  simp only [assessedCount, List.countP_cons]
  cases r.impacts_values <;> simp [Nat.add_comm]

theorem notAssessedCount_cons (r : CloudResourceWithImpacts)
    (l : List CloudResourceWithImpacts) :
    notAssessedCount (r :: l) =
      (if r.impacts_values.isNone then 1 else 0) + notAssessedCount l := by
  simp only [notAssessedCount, List.countP_cons]
  cases r.impacts_values <;> simp [Nat.add_comm]

theorem metricSum_cons (f : ImpactsValues → ℚ) (r : CloudResourceWithImpacts)
    (l : List CloudResourceWithImpacts) :
    metricSum f (r :: l) =
      (match r.impacts_values with
       | some impacts => f impacts
       | none => 0) + metricSum f l := by
  simp [metricSum]

/-- Closed form of the accumulation loop of `ImpactsSummary::new`: folding
`addResource` over a list touches only the assessed/not-assessed counters
and the six metric totals, adding the list's aggregate to each. -/
theorem foldl_addResource (l : List CloudResourceWithImpacts)
    (init : ImpactsSummary) :
    l.foldl ImpactsSummary.addResource init =
      { init with
        number_of_resources_assessed :=
          init.number_of_resources_assessed + assessedCount l
        number_of_resources_not_assessed :=
          init.number_of_resources_not_assessed + notAssessedCount l
        adp_manufacture_kgsbeq :=
          init.adp_manufacture_kgsbeq + metricSum (fun i => i.adp_manufacture_kgsbeq) l
        adp_use_kgsbeq :=
          init.adp_use_kgsbeq + metricSum (fun i => i.adp_use_kgsbeq) l
        pe_manufacture_megajoules :=
          init.pe_manufacture_megajoules + metricSum (fun i => i.pe_manufacture_megajoules) l
        pe_use_megajoules :=
          init.pe_use_megajoules + metricSum (fun i => i.pe_use_megajoules) l
        gwp_manufacture_kgco2eq :=
          init.gwp_manufacture_kgco2eq + metricSum (fun i => i.gwp_manufacture_kgco2eq) l
        gwp_use_kgco2eq :=
          init.gwp_use_kgco2eq + metricSum (fun i => i.gwp_use_kgco2eq) l } := by
  induction l generalizing init with
  | nil =>
      simp [assessedCount_nil, notAssessedCount_nil, metricSum_nil]
  | cons r t ih =>
      rw [List.foldl_cons, ih]
      cases h : r.impacts_values with
      | none =>
          simp [ImpactsSummary.addResource, h, assessedCount_cons,
            notAssessedCount_cons, metricSum_cons, add_assoc]
      | some impacts =>
          simp [ImpactsSummary.addResource, h, assessedCount_cons,
            notAssessedCount_cons, metricSum_cons, add_assoc, Nat.add_comm 1]

/-- Closed form of `ImpactsSummary::new`: each field of the result in terms
of the input list's length, counts and per-metric sums, with the report
context copied verbatim from the arguments. -/
theorem ImpactsSummary.new_spec (aws_region country : String)
    (inv : EstimatedInventory) (dur : ℚ) :
    ImpactsSummary.new aws_region country inv dur =
      { number_of_resources_total := inv.impacting_resources.length
        number_of_resources_assessed := assessedCount inv.impacting_resources
        number_of_resources_not_assessed := notAssessedCount inv.impacting_resources
        duration_of_use_hours := dur
        adp_manufacture_kgsbeq :=
          metricSum (fun i => i.adp_manufacture_kgsbeq) inv.impacting_resources
        adp_use_kgsbeq := metricSum (fun i => i.adp_use_kgsbeq) inv.impacting_resources
        pe_manufacture_megajoules :=
          metricSum (fun i => i.pe_manufacture_megajoules) inv.impacting_resources
        pe_use_megajoules :=
          metricSum (fun i => i.pe_use_megajoules) inv.impacting_resources
        gwp_manufacture_kgco2eq :=
          metricSum (fun i => i.gwp_manufacture_kgco2eq) inv.impacting_resources
        gwp_use_kgco2eq :=
          metricSum (fun i => i.gwp_use_kgco2eq) inv.impacting_resources
        aws_region := aws_region
        country := country } := by
  unfold ImpactsSummary.new
  rw [foldl_addResource]
  simp

/-- Every resource either carries impact data or does not, so the two
counters partition the list. -/
theorem assessedCount_add_notAssessedCount (l : List CloudResourceWithImpacts) :
    assessedCount l + notAssessedCount l = l.length := by
  induction l with
  | nil => rfl
  | cons r t ih =>
      rw [assessedCount_cons, notAssessedCount_cons, List.length_cons]
      cases r.impacts_values <;> simp <;> omega

/-- C1: for every estimated inventory, the summary returned by
`ImpactsSummary::new` satisfies
`number_of_resources_total = number_of_resources_assessed + number_of_resources_not_assessed`,
and `number_of_resources_total` equals the length of the inventory's
resource list. -/
theorem C1_count_invariant (aws_region country : String)
    (inv : EstimatedInventory) (dur : ℚ) :
    (ImpactsSummary.new aws_region country inv dur).number_of_resources_total =
      (ImpactsSummary.new aws_region country inv dur).number_of_resources_assessed +
        (ImpactsSummary.new aws_region country inv dur).number_of_resources_not_assessed ∧
    (ImpactsSummary.new aws_region country inv dur).number_of_resources_total =
      inv.impacting_resources.length := by
  rw [ImpactsSummary.new_spec]
  exact ⟨(assessedCount_add_notAssessedCount inv.impacting_resources).symm, rfl⟩

/-- C3: `ImpactsSummary::new` is a total function returning a summary for
every input; on the empty estimated inventory it returns all three resource
counts `0`, all six metric totals `0`, and `duration_of_use_hours` equal to
the duration argument as given (with the report-context strings copied
verbatim). -/
theorem C3_total_function_empty_inventory (aws_region country : String) (dur : ℚ) :
    (∀ inv : EstimatedInventory, ∃ s : ImpactsSummary,
      ImpactsSummary.new aws_region country inv dur = s) ∧
    ImpactsSummary.new aws_region country ⟨[]⟩ dur =
      { number_of_resources_total := 0
        number_of_resources_assessed := 0
        number_of_resources_not_assessed := 0
        duration_of_use_hours := dur
        adp_manufacture_kgsbeq := 0
        adp_use_kgsbeq := 0
        pe_manufacture_megajoules := 0
        pe_use_megajoules := 0
        gwp_manufacture_kgco2eq := 0
        gwp_use_kgco2eq := 0
        aws_region := aws_region
        country := country } := by
  refine ⟨fun inv => ⟨_, rfl⟩, ?_⟩
  rw [ImpactsSummary.new_spec]
  rfl

/-- C6: the concrete 3-resource scenario — R1 with impacts
`(1, 2, 3, 4, 5, 6)`, R2 with all impact fields `0`, R3 not assessed,
duration `24`, location `"eu-west-1"`, country `"FRA"` — yields exactly
`total = 3, assessed = 2, not_assessed = 1`, metric totals
`(1, 2, 3, 4, 5, 6)`, duration `24` and the two context strings. -/
theorem C6_concrete_scenario :
    ImpactsSummary.new "eu-west-1" "FRA"
      ⟨[⟨⟨"R1"⟩, some ⟨1, 2, 3, 4, 5, 6, none⟩, 24⟩,
        ⟨⟨"R2"⟩, some ⟨0, 0, 0, 0, 0, 0, none⟩, 24⟩,
        ⟨⟨"R3"⟩, none, 24⟩]⟩ 24 =
      ⟨3, 2, 1, 24, 1, 2, 3, 4, 5, 6, "eu-west-1", "FRA"⟩ := by
  norm_num [ImpactsSummary.new, ImpactsSummary.addResource]

/-- C10: `ImpactsSummary::new` performs no validation, clamping or
rejection of impact values: for every inventory (negative metric fields
included) each metric total is the plain left-to-right sum of that field
over the assessed resources, and a concrete inventory with a negative
impact value yields a summary with a negative metric total. -/
theorem C10_no_nonnegativity_enforcement :
    (∀ (aws_region country : String) (inv : EstimatedInventory) (dur : ℚ),
      (ImpactsSummary.new aws_region country inv dur).adp_manufacture_kgsbeq =
        metricSum (fun i => i.adp_manufacture_kgsbeq) inv.impacting_resources ∧
      (ImpactsSummary.new aws_region country inv dur).adp_use_kgsbeq =
        metricSum (fun i => i.adp_use_kgsbeq) inv.impacting_resources ∧
      (ImpactsSummary.new aws_region country inv dur).pe_manufacture_megajoules =
        metricSum (fun i => i.pe_manufacture_megajoules) inv.impacting_resources ∧
      (ImpactsSummary.new aws_region country inv dur).pe_use_megajoules =
        metricSum (fun i => i.pe_use_megajoules) inv.impacting_resources ∧
      (ImpactsSummary.new aws_region country inv dur).gwp_manufacture_kgco2eq =
        metricSum (fun i => i.gwp_manufacture_kgco2eq) inv.impacting_resources ∧
      (ImpactsSummary.new aws_region country inv dur).gwp_use_kgco2eq =
        metricSum (fun i => i.gwp_use_kgco2eq) inv.impacting_resources) ∧
    (ImpactsSummary.new "eu-west-1" "FRA"
        ⟨[⟨⟨"R1"⟩, some ⟨-1, -2, -3, -4, -5, -(6 : ℚ), none⟩, 24⟩]⟩ 24).gwp_use_kgco2eq
      < 0 := by
  constructor
  · intro aws_region country inv dur
    rw [ImpactsSummary.new_spec]
    exact ⟨rfl, rfl, rfl, rfl, rfl, rfl⟩
  · norm_num [ImpactsSummary.new, ImpactsSummary.addResource]

theorem assessedCount_append (l₁ l₂ : List CloudResourceWithImpacts) :
    assessedCount (l₁ ++ l₂) = assessedCount l₁ + assessedCount l₂ := by
  simp [assessedCount, List.countP_append]

theorem notAssessedCount_append (l₁ l₂ : List CloudResourceWithImpacts) :
    notAssessedCount (l₁ ++ l₂) = notAssessedCount l₁ + notAssessedCount l₂ := by
  simp [notAssessedCount, List.countP_append]

theorem metricSum_append (f : ImpactsValues → ℚ)
    (l₁ l₂ : List CloudResourceWithImpacts) :
    metricSum f (l₁ ++ l₂) = metricSum f l₁ + metricSum f l₂ := by
  simp [metricSum]

/-- C2: processing one more resource at the end of the inventory has
exactly the per-resource effect the spec describes.  A resource without
impact data adds `0` to every metric total (all six totals unchanged) and
increments only `number_of_resources_not_assessed`; a resource with impact
data increments `number_of_resources_assessed` and adds each of its six
metric fields into the matching total, each metric independently of the
others. -/
theorem C2_per_resource_accumulation (aws_region country : String) (dur : ℚ)
    (l : List CloudResourceWithImpacts) (r : CloudResourceWithImpacts) :
    ImpactsSummary.new aws_region country ⟨l ++ [r]⟩ dur =
      (match r.impacts_values with
       | some impacts =>
           { ImpactsSummary.new aws_region country ⟨l⟩ dur with
             number_of_resources_total := l.length + 1
             number_of_resources_assessed :=
               (ImpactsSummary.new aws_region country ⟨l⟩ dur).number_of_resources_assessed + 1
             adp_manufacture_kgsbeq :=
               (ImpactsSummary.new aws_region country ⟨l⟩ dur).adp_manufacture_kgsbeq +
                 impacts.adp_manufacture_kgsbeq
             adp_use_kgsbeq :=
               (ImpactsSummary.new aws_region country ⟨l⟩ dur).adp_use_kgsbeq +
                 impacts.adp_use_kgsbeq
             pe_manufacture_megajoules :=
               (ImpactsSummary.new aws_region country ⟨l⟩ dur).pe_manufacture_megajoules +
                 impacts.pe_manufacture_megajoules
             pe_use_megajoules :=
               (ImpactsSummary.new aws_region country ⟨l⟩ dur).pe_use_megajoules +
                 impacts.pe_use_megajoules
             gwp_manufacture_kgco2eq :=
               (ImpactsSummary.new aws_region country ⟨l⟩ dur).gwp_manufacture_kgco2eq +
                 impacts.gwp_manufacture_kgco2eq
             gwp_use_kgco2eq :=
               (ImpactsSummary.new aws_region country ⟨l⟩ dur).gwp_use_kgco2eq +
                 impacts.gwp_use_kgco2eq }
       | none =>
           { ImpactsSummary.new aws_region country ⟨l⟩ dur with
             number_of_resources_total := l.length + 1
             number_of_resources_not_assessed :=
               (ImpactsSummary.new aws_region country ⟨l⟩ dur).number_of_resources_not_assessed + 1 }) := by
  cases h : r.impacts_values with
  | some impacts =>
      simp only [ImpactsSummary.new_spec, assessedCount_append, notAssessedCount_append,
        metricSum_append, assessedCount_cons, notAssessedCount_cons, metricSum_cons,
        assessedCount_nil, notAssessedCount_nil, metricSum_nil, List.length_append,
        List.length_cons, List.length_nil, h, Option.isSome_some, Option.isNone_some]
      simp
  | none =>
      simp only [ImpactsSummary.new_spec, assessedCount_append, notAssessedCount_append,
        metricSum_append, assessedCount_cons, notAssessedCount_cons, metricSum_cons,
        assessedCount_nil, notAssessedCount_nil, metricSum_nil, List.length_append,
        List.length_cons, List.length_nil, h, Option.isSome_none, Option.isNone_none]
      simp

/-- C4: permuting the order of the inventory's resource list never changes
any field of the summary returned by `ImpactsSummary::new` (the returned
record carries no diagnostic notes; the `debug!` trace is outside it). -/
theorem C4_order_independence (aws_region country : String) (dur : ℚ)
    (l₁ l₂ : List CloudResourceWithImpacts) (h : l₁.Perm l₂) :
    ImpactsSummary.new aws_region country ⟨l₁⟩ dur =
      ImpactsSummary.new aws_region country ⟨l₂⟩ dur := by
  have hlen : l₁.length = l₂.length := h.length_eq
  have ha : assessedCount l₁ = assessedCount l₂ := h.countP_eq _
  have hn : notAssessedCount l₁ = notAssessedCount l₂ := h.countP_eq _
  have hm : ∀ f : ImpactsValues → ℚ, metricSum f l₁ = metricSum f l₂ := by
    intro f
    unfold metricSum
    exact (h.map _).sum_eq
  simp only [ImpactsSummary.new_spec]
  simp [hlen, ha, hn, hm]

/-- Closed instance of C4: swapping the two resources of a concrete
two-element inventory leaves the summary unchanged. -/
theorem C4_order_independence_witness :
    ImpactsSummary.new "eu-west-1" "FRA"
      ⟨[⟨⟨"A"⟩, some ⟨1, 2, 3, 4, 5, 6, none⟩, 24⟩, ⟨⟨"B"⟩, none, 24⟩]⟩ 24 =
      ImpactsSummary.new "eu-west-1" "FRA"
        ⟨[⟨⟨"B"⟩, none, 24⟩, ⟨⟨"A"⟩, some ⟨1, 2, 3, 4, 5, 6, none⟩, 24⟩]⟩ 24 :=
  C4_order_independence "eu-west-1" "FRA" 24 _ _ (List.Perm.swap _ _ _)

/-- C5: summarizing the concatenation `A ++ B` of two inventories (with
the same report-context arguments) gives each of the six metric totals as
the field-wise sum of the two separate summaries' totals, and each of the
three resource counts as the sum of the two separate counts. -/
theorem C5_additivity (aws_region country : String) (dur : ℚ)
    (A B : List CloudResourceWithImpacts) :
    (ImpactsSummary.new aws_region country ⟨A ++ B⟩ dur).number_of_resources_total =
      (ImpactsSummary.new aws_region country ⟨A⟩ dur).number_of_resources_total +
        (ImpactsSummary.new aws_region country ⟨B⟩ dur).number_of_resources_total ∧
    (ImpactsSummary.new aws_region country ⟨A ++ B⟩ dur).number_of_resources_assessed =
      (ImpactsSummary.new aws_region country ⟨A⟩ dur).number_of_resources_assessed +
        (ImpactsSummary.new aws_region country ⟨B⟩ dur).number_of_resources_assessed ∧
    (ImpactsSummary.new aws_region country ⟨A ++ B⟩ dur).number_of_resources_not_assessed =
      (ImpactsSummary.new aws_region country ⟨A⟩ dur).number_of_resources_not_assessed +
        (ImpactsSummary.new aws_region country ⟨B⟩ dur).number_of_resources_not_assessed ∧
    (ImpactsSummary.new aws_region country ⟨A ++ B⟩ dur).adp_manufacture_kgsbeq =
      (ImpactsSummary.new aws_region country ⟨A⟩ dur).adp_manufacture_kgsbeq +
        (ImpactsSummary.new aws_region country ⟨B⟩ dur).adp_manufacture_kgsbeq ∧
    (ImpactsSummary.new aws_region country ⟨A ++ B⟩ dur).adp_use_kgsbeq =
      (ImpactsSummary.new aws_region country ⟨A⟩ dur).adp_use_kgsbeq +
        (ImpactsSummary.new aws_region country ⟨B⟩ dur).adp_use_kgsbeq ∧
    (ImpactsSummary.new aws_region country ⟨A ++ B⟩ dur).pe_manufacture_megajoules =
      (ImpactsSummary.new aws_region country ⟨A⟩ dur).pe_manufacture_megajoules +
        (ImpactsSummary.new aws_region country ⟨B⟩ dur).pe_manufacture_megajoules ∧
    (ImpactsSummary.new aws_region country ⟨A ++ B⟩ dur).pe_use_megajoules =
      (ImpactsSummary.new aws_region country ⟨A⟩ dur).pe_use_megajoules +
        (ImpactsSummary.new aws_region country ⟨B⟩ dur).pe_use_megajoules ∧
    (ImpactsSummary.new aws_region country ⟨A ++ B⟩ dur).gwp_manufacture_kgco2eq =
      (ImpactsSummary.new aws_region country ⟨A⟩ dur).gwp_manufacture_kgco2eq +
        (ImpactsSummary.new aws_region country ⟨B⟩ dur).gwp_manufacture_kgco2eq ∧
    (ImpactsSummary.new aws_region country ⟨A ++ B⟩ dur).gwp_use_kgco2eq =
      (ImpactsSummary.new aws_region country ⟨A⟩ dur).gwp_use_kgco2eq +
        (ImpactsSummary.new aws_region country ⟨B⟩ dur).gwp_use_kgco2eq := by
  simp [ImpactsSummary.new_spec, assessedCount_append, notAssessedCount_append,
    metricSum_append]

/-- If two lists agree pairwise on `impacts_values`, every aggregate the
summary is built from agrees as well. -/
theorem aggregates_of_impacts_eq {l l' : List CloudResourceWithImpacts}
    (h : List.Forall₂ (fun r r' => r.impacts_values = r'.impacts_values) l l') :
    l.length = l'.length ∧ assessedCount l = assessedCount l' ∧
      notAssessedCount l = notAssessedCount l' ∧
      ∀ f : ImpactsValues → ℚ, metricSum f l = metricSum f l' := by
  induction h with
  | nil => exact ⟨rfl, rfl, rfl, fun _ => rfl⟩
  | cons hab ht ih =>
      obtain ⟨ihlen, iha, ihn, ihm⟩ := ih
      refine ⟨by simp [ihlen], ?_, ?_, ?_⟩
      · rw [assessedCount_cons, assessedCount_cons, hab, iha]
      · rw [notAssessedCount_cons, notAssessedCount_cons, hab, ihn]
      · intro f
        rw [metricSum_cons, metricSum_cons, hab, ihm f]

/-- C7: the returned summary's `aws_region`, `country` and
`duration_of_use_hours` equal the corresponding call arguments verbatim,
and the summary is independent of the per-pairing `impacts_duration_hours`
values: two inventories whose pairings agree on everything except possibly
`impacts_duration_hours` produce identical summaries. -/
theorem C7_context_verbatim_duration_frame (aws_region country : String)
    (inv : EstimatedInventory) (dur : ℚ) :
    (ImpactsSummary.new aws_region country inv dur).aws_region = aws_region ∧
    (ImpactsSummary.new aws_region country inv dur).country = country ∧
    (ImpactsSummary.new aws_region country inv dur).duration_of_use_hours = dur ∧
    ∀ inv' : EstimatedInventory,
      List.Forall₂ (fun r r' => r.cloud_resource = r'.cloud_resource ∧
          r.impacts_values = r'.impacts_values)
        inv.impacting_resources inv'.impacting_resources →
      ImpactsSummary.new aws_region country inv dur =
        ImpactsSummary.new aws_region country inv' dur := by
  refine ⟨by rw [ImpactsSummary.new_spec], by rw [ImpactsSummary.new_spec],
    by rw [ImpactsSummary.new_spec], ?_⟩
  intro inv' h
  have h' : List.Forall₂ (fun r r' => r.impacts_values = r'.impacts_values)
      inv.impacting_resources inv'.impacting_resources :=
    h.imp (fun _ _ hab => hab.2)
  obtain ⟨hlen, ha, hn, hm⟩ := aggregates_of_impacts_eq h'
  rw [ImpactsSummary.new_spec, ImpactsSummary.new_spec]
  simp [hlen, ha, hn, hm]

/-- Closed instance of C7: changing a pairing's `impacts_duration_hours`
from `24` to `1` leaves the summary unchanged. -/
theorem C7_context_verbatim_duration_frame_witness :
    ImpactsSummary.new "eu-west-1" "FRA"
      ⟨[⟨⟨"A"⟩, some ⟨1, 2, 3, 4, 5, 6, none⟩, 24⟩]⟩ 24 =
      ImpactsSummary.new "eu-west-1" "FRA"
        ⟨[⟨⟨"A"⟩, some ⟨1, 2, 3, 4, 5, 6, none⟩, 1⟩]⟩ 24 :=
  (C7_context_verbatim_duration_frame "eu-west-1" "FRA"
      ⟨[⟨⟨"A"⟩, some ⟨1, 2, 3, 4, 5, 6, none⟩, 24⟩]⟩ 24).2.2.2
    ⟨[⟨⟨"A"⟩, some ⟨1, 2, 3, 4, 5, 6, none⟩, 1⟩]⟩
    (List.Forall₂.cons ⟨rfl, rfl⟩ List.Forall₂.nil)

/-- `ImpactsValues` with the opaque `raw_data` payload erased. -/
def stripRawData (i : ImpactsValues) : ImpactsValues :=
  { i with raw_data := none }

/-- If two lists agree pairwise on their impact values up to `raw_data`,
the counters agree, and so does every metric sum taken by a function that
ignores `raw_data`. -/
theorem aggregates_of_stripped_eq {l l' : List CloudResourceWithImpacts}
    (h : List.Forall₂ (fun r r' =>
      r.impacts_values.map stripRawData = r'.impacts_values.map stripRawData) l l') :
    l.length = l'.length ∧ assessedCount l = assessedCount l' ∧
      notAssessedCount l = notAssessedCount l' ∧
      ∀ f : ImpactsValues → ℚ, (∀ i, f (stripRawData i) = f i) →
        metricSum f l = metricSum f l' := by
  induction h with
  | nil => exact ⟨rfl, rfl, rfl, fun _ _ => rfl⟩
  | cons hab ht ih =>
      obtain ⟨ihlen, iha, ihn, ihm⟩ := ih
      rename_i a b l₁ l₂
      cases hva : a.impacts_values with
      | none =>
          cases hvb : b.impacts_values with
          | none =>
              refine ⟨by simp [ihlen], ?_, ?_, ?_⟩
              · rw [assessedCount_cons, assessedCount_cons, hva, hvb, iha]
              · rw [notAssessedCount_cons, notAssessedCount_cons, hva, hvb, ihn]
              · intro f hf
                rw [metricSum_cons, metricSum_cons, hva, hvb, ihm f hf]
          | some ib =>
              rw [hva, hvb] at hab
              simp at hab
      | some ia =>
          cases hvb : b.impacts_values with
          | none =>
              rw [hva, hvb] at hab
              simp at hab
          | some ib =>
              rw [hva, hvb] at hab
              have hab' : stripRawData ia = stripRawData ib := by
                simpa using hab
              refine ⟨by simp [ihlen], ?_, ?_, ?_⟩
              · rw [assessedCount_cons, assessedCount_cons, hva, hvb, iha]
                simp
              · rw [notAssessedCount_cons, notAssessedCount_cons, hva, hvb, ihn]
                simp
              · intro f hf
                have hfab : f ia = f ib := by
                  rw [← hf ia, ← hf ib, hab']
                rw [metricSum_cons, metricSum_cons, hva, hvb, ihm f hf]
                simp [hfab]

/-- C8: the aggregator never interprets `raw_data` — two estimated
inventories that differ only in the `raw_data` fields of their impact
values (all other fields of every pairing equal) produce identical
summaries. -/
theorem C8_raw_data_noninterference (aws_region country : String) (dur : ℚ)
    (inv inv' : EstimatedInventory)
    (h : List.Forall₂ (fun r r' => r.cloud_resource = r'.cloud_resource ∧
        r.impacts_duration_hours = r'.impacts_duration_hours ∧
        r.impacts_values.map stripRawData = r'.impacts_values.map stripRawData)
      inv.impacting_resources inv'.impacting_resources) :
    ImpactsSummary.new aws_region country inv dur =
      ImpactsSummary.new aws_region country inv' dur := by
  have h' : List.Forall₂ (fun r r' =>
      r.impacts_values.map stripRawData = r'.impacts_values.map stripRawData)
      inv.impacting_resources inv'.impacting_resources :=
    h.imp (fun _ _ hab => hab.2.2)
  obtain ⟨hlen, ha, hn, hm⟩ := aggregates_of_stripped_eq h'
  rw [ImpactsSummary.new_spec, ImpactsSummary.new_spec]
  have h1 := hm (fun i => i.adp_manufacture_kgsbeq) (fun _ => rfl)
  have h2 := hm (fun i => i.adp_use_kgsbeq) (fun _ => rfl)
  have h3 := hm (fun i => i.pe_manufacture_megajoules) (fun _ => rfl)
  have h4 := hm (fun i => i.pe_use_megajoules) (fun _ => rfl)
  have h5 := hm (fun i => i.gwp_manufacture_kgco2eq) (fun _ => rfl)
  have h6 := hm (fun i => i.gwp_use_kgco2eq) (fun _ => rfl)
  simp only [hlen, ha, hn, h1, h2, h3, h4, h5, h6]

/-- Closed instance of C8: attaching a raw-data payload to an assessed
resource leaves the summary unchanged. -/
theorem C8_raw_data_noninterference_witness :
    ImpactsSummary.new "eu-west-1" "FRA"
      ⟨[⟨⟨"A"⟩, some ⟨1, 2, 3, 4, 5, 6, none⟩, 24⟩]⟩ 24 =
      ImpactsSummary.new "eu-west-1" "FRA"
        ⟨[⟨⟨"A"⟩, some ⟨1, 2, 3, 4, 5, 6, some "backend payload"⟩, 24⟩]⟩ 24 :=
  C8_raw_data_noninterference "eu-west-1" "FRA" 24
    ⟨[⟨⟨"A"⟩, some ⟨1, 2, 3, 4, 5, 6, none⟩, 24⟩]⟩
    ⟨[⟨⟨"A"⟩, some ⟨1, 2, 3, 4, 5, 6, some "backend payload"⟩, 24⟩]⟩
    (List.Forall₂.cons ⟨rfl, rfl, rfl⟩ List.Forall₂.nil)

/-- Modelled from the spec: `Inventory` is defined in `model.rs`, which is
not part of the sources under verification.  The spec describes it as an
ordered collection of opaque cloud-resource descriptors. -/
structure Inventory where
  resources : List CloudResource
deriving Repr, DecidableEq

/-- Modelled from the spec (§7 error taxonomy): the ways a provider call
can fail as a whole.  The source only exposes `anyhow::Result`, so the
error cases come from the spec's taxonomy. -/
inductive ProviderError where
  | invalidDuration
  | backendUnavailable
deriving Repr, DecidableEq

/-- Modelled from the spec: the `ImpactProvider` trait of
`impact_provider.rs` only declares the async method
`get_impacts(inventory, usage_duration_hours, verbose) -> Result<EstimatedInventory>`;
no implementation is under the sources being verified.  A provider is
modelled as a function from those arguments to either an error or an
estimated inventory (the async call is modelled as its final outcome). -/
def ImpactProvider : Type :=
  Inventory → ℚ → Bool → Except ProviderError EstimatedInventory

/-- Modelled from the spec (§4.1, §7): the provider contract — a call with
non-positive `usage_duration_hours` must fail as a whole, and a successful
call returns exactly one pairing per input resource, in the same order,
each pairing quoting the requested duration. -/
def SatisfiesProviderContract (get_impacts : ImpactProvider) : Prop :=
  ∀ (inventory : Inventory) (usage_duration_hours : ℚ) (verbose : Bool),
    (usage_duration_hours ≤ 0 →
      ∃ e, get_impacts inventory usage_duration_hours verbose = Except.error e) ∧
    (∀ est, get_impacts inventory usage_duration_hours verbose = Except.ok est →
      est.impacting_resources.map (fun r => r.cloud_resource) = inventory.resources ∧
      ∀ r ∈ est.impacting_resources, r.impacts_duration_hours = usage_duration_hours)

/-- C9: any provider satisfying the contract fails on a non-positive
usage duration, and never returns an estimated inventory with a negative
(or zero) duration: every successful call was made with a positive
duration and every returned pairing quotes that positive duration. -/
theorem C9_provider_duration_contract (p : ImpactProvider)
    (hp : SatisfiesProviderContract p) (inventory : Inventory)
    (usage_duration_hours : ℚ) (verbose : Bool) :
    (usage_duration_hours ≤ 0 →
      ∃ e, p inventory usage_duration_hours verbose = Except.error e) ∧
    (∀ est, p inventory usage_duration_hours verbose = Except.ok est →
      0 < usage_duration_hours ∧
      ∀ r ∈ est.impacting_resources, 0 < r.impacts_duration_hours) := by
  obtain ⟨hfail, hok⟩ := hp inventory usage_duration_hours verbose
  refine ⟨hfail, ?_⟩
  intro est hest
  have hpos : 0 < usage_duration_hours := by
    by_contra hneg
    push_neg at hneg
    obtain ⟨e, he⟩ := hfail hneg
    rw [hest] at he
    exact Except.noConfusion he
  refine ⟨hpos, ?_⟩
  intro r hr
  rw [(hok est hest).2 r hr]
  exact hpos

/-- A minimal conforming provider used to exhibit the contract: it rejects
non-positive durations and otherwise pairs every resource with no impact
data and the requested duration. -/
def mockProvider : ImpactProvider := fun inventory usage_duration_hours _ =>
  if usage_duration_hours ≤ 0 then Except.error ProviderError.invalidDuration
  else Except.ok ⟨inventory.resources.map (fun c => ⟨c, none, usage_duration_hours⟩)⟩

theorem mockProvider_contract : SatisfiesProviderContract mockProvider := by
  intro inventory usage_duration_hours verbose
  constructor
  · intro hdur
    refine ⟨ProviderError.invalidDuration, ?_⟩
    simp [mockProvider, hdur]
  · intro est hest
    unfold mockProvider at hest
    split at hest
    · exact Except.noConfusion hest
    · obtain rfl := (Except.ok.injEq _ _).mp hest
      constructor
      · simp [List.map_map, Function.comp_def]
      · intro r hr
        simp only [List.mem_map] at hr
        obtain ⟨c, _, rfl⟩ := hr
        rfl

/-- Closed instance of C9: the conforming mock provider fails on the
non-positive duration `0`. -/
theorem C9_provider_duration_contract_witness :
    ∃ e, mockProvider ⟨[⟨"A"⟩]⟩ 0 false = Except.error e :=
  (C9_provider_duration_contract mockProvider mockProvider_contract
    ⟨[⟨"A"⟩]⟩ 0 false).1 (le_refl 0)
